import Mathlib

/-!
Shallow embedding of the Mock Payment Service (mock payment simulator).

The service processes payment requests against a configurable table of
magic test-card numbers, stores accepted transactions in an in-memory
map, and supports retrieval, refund and reset of stored transactions.

Randomness (the two probability rolls) is modelled by passing the drawn
random values explicitly; timestamps and generated identifiers are
likewise passed as parameters.  JavaScript truthiness of request fields
is modelled explicitly: a missing field is `none`, and the falsy values
relevant here are the number 0 and the empty string.
-/

namespace MockPayment

/-- The table of magic test-card numbers (`testCards` in the config). -/
structure TestCards where
  success : String
  decline : String
  error : String
  cvvError : String
  expiredCard : String
  insufficientFunds : String
  invalidCard : String
deriving DecidableEq

/-- The service configuration fields the request handlers consult.
Port and delay bounds are omitted: they affect only transport timing,
never the response content or the store. -/
structure Config where
  errorRate : ℚ
  declineRate : ℚ
  availablePaymentMethods : List String
  testCards : TestCards
deriving DecidableEq

/-- `DEFAULT_CONFIG` from the source (the fields used by the handlers).
Note that `error` and `expiredCard` are assigned the same card number. -/
def DEFAULT_CONFIG : Config :=
  { errorRate := 5/100
    declineRate := 10/100
    availablePaymentMethods := ["credit_card", "paypal", "apple_pay", "google_pay"]
    testCards :=
      { success := "4111111111111111"
        decline := "4000000000000002"
        error := "4000000000000069"
        cvvError := "4000000000000127"
        expiredCard := "4000000000000069"
        insufficientFunds := "4000000000009995"
        invalidCard := "1234567890123456" } }

/-- A stored payment transaction.  The `metadata` and `billingInfo`
pass-through fields are omitted: they are opaque copies of the request,
never inspected by any handler. -/
structure Transaction where
  id : String
  paymentMethod : String
  amount : ℚ
  currency : String
  status : String
  createdAt : String
  refundedAt : Option String := none
  refundAmount : Option ℚ := none
  refundReason : Option String := none
deriving DecidableEq

/-- The in-memory transaction map, as an ordered association list
(mirroring a JavaScript `Map`). -/
abbrev Store := List (String × Transaction)

/-- `transactions.get(id)` (with `has` expressed as `isSome`). -/
def findTransaction : Store → String → Option Transaction
  | [], _ => none
  | (k, v) :: rest, id => if k = id then some v else findTransaction rest id

/-- `transactions.set(id, t)`: replace in place if the key is present,
append otherwise. -/
def setTransaction : Store → String → Transaction → Store
  | [], id, t => [(id, t)]
  | (k, v) :: rest, id, t =>
      if k = id then (id, t) :: rest else (k, v) :: setTransaction rest id t

/-- `transactions.clear()` in `resetTransactions`. -/
def resetTransactions (_ : Store) : Store := []

/-- `cardDetails` of a payment request; `number` may itself be absent. -/
structure CardDetails where
  number : Option String
deriving DecidableEq

/-- Body of a `POST /api/payments` request (the fields the handler reads). -/
structure PaymentRequest where
  paymentMethod : Option String
  amount : Option ℚ
  currency : Option String
  cardDetails : Option CardDetails
deriving DecidableEq

/-- Body of a `POST /api/payments/:id/refund` request. -/
structure RefundRequest where
  amount : Option ℚ
  reason : Option String
deriving DecidableEq

/-- `cardDetails?.number`: optional chaining through both levels. -/
def rawCardNumber (req : PaymentRequest) : Option String :=
  req.cardDetails.bind fun cd => cd.number

/-- JavaScript truthiness of an optional string field: present and nonempty. -/
def truthyStr : Option String → Bool
  | none => false
  | some s => s != ""

/-- JavaScript truthiness of an optional numeric field: present and nonzero.
(NaN, the other falsy number, has no rational counterpart.) -/
def truthyNum : Option ℚ → Bool
  | none => false
  | some q => q != 0

/-- `number.replace(/\s+/g, String.mk [])`: drop every whitespace character. -/
def stripWhitespace (s : String) : String :=
  String.mk (s.data.filter fun c => !c.isWhitespace)

/-- Response of the process-payment handler: either an error response
(HTTP status, error code, error message) or the 201 success payload. -/
inductive ProcessResult where
  | failure (httpStatus : Nat) (code : String) (message : String)
  | success (httpStatus : Nat) (transactionId : String) (status : String)
      (amount : ℚ) (currency : String) (createdAt : String)
deriving DecidableEq

/-- Response of the get-payment handler. -/
inductive GetResult where
  | failure (httpStatus : Nat) (code : String) (message : String)
  | success (transactionId : String) (paymentMethod : String) (amount : ℚ)
      (currency : String) (status : String) (createdAt : String)
deriving DecidableEq

/-- Response of the refund handler. -/
inductive RefundResult where
  | failure (httpStatus : Nat) (code : String) (message : String)
  | success (transactionId : String) (status : String) (refundAmount : ℚ)
      (refundedAt : String) (reason : String)
deriving DecidableEq

/-- The chain of magic-card comparisons in `processPayment`, applied to the
whitespace-stripped card number, in source order.  Returns the forced
error response (status, code, message) when a magic number matches. -/
def magicCardError (cards : TestCards) (cardNumber : String) :
    Option (Nat × String × String) :=
  if cardNumber = cards.decline then
    some (402, "card_declined",
      "The card was declined. Please try another payment method.")
  else if cardNumber = cards.error then
    some (500, "processing_error",
      "An error occurred while processing the card. Please try again.")
  else if cardNumber = cards.cvvError then
    some (400, "invalid_cvv",
      "The CVV code is invalid. Please check and try again.")
  else if cardNumber = cards.expiredCard then
    some (400, "expired_card",
      "The card has expired. Please use a different card.")
  else if cardNumber = cards.insufficientFunds then
    some (402, "insufficient_funds",
      "The card has insufficient funds. Please use a different card.")
  else if cardNumber = cards.invalidCard then
    some (400, "invalid_card",
      "The card number is invalid. Please check and try again.")
  else none

/-- The credit-card block of `processPayment`: require card details and a
truthy card number, then run the magic-card comparisons on the stripped
number.  `none` means fall through to the decline roll. -/
def creditCardCheck (cfg : Config) (req : PaymentRequest) : Option ProcessResult :=
  if req.paymentMethod = some "credit_card" then
    match rawCardNumber req with
    | none =>
        some (ProcessResult.failure 400 "invalid_card_details"
          "Card details are required for credit card payments")
    | some raw =>
        if raw = "" then
          some (ProcessResult.failure 400 "invalid_card_details"
            "Card details are required for credit card payments")
        else
          match magicCardError cfg.testCards (stripWhitespace raw) with
          | some r3 => some (ProcessResult.failure r3.1 r3.2.1 r3.2.2)
          | none => none
  else none

/-- `processPayment`.  `errDraw` and `declineDraw` are the two
`Math.random()` values, `freshId` the generated uuid, `now` the
timestamp.  Returns the response and the updated store. -/
def processPayment (cfg : Config) (req : PaymentRequest)
    (errDraw declineDraw : ℚ) (freshId now : String) (store : Store) :
    ProcessResult × Store :=
  if !(truthyStr req.paymentMethod && truthyNum req.amount && truthyStr req.currency) then
    (ProcessResult.failure 400 "invalid_request"
      "Missing required fields: paymentMethod, amount, and currency are required",
     store)
  else
    match req.paymentMethod, req.amount, req.currency with
    | some pm, some amt, some cur =>
      if !(cfg.availablePaymentMethods.contains pm) then
        (ProcessResult.failure 400 "invalid_payment_method"
          ("Invalid payment method. Supported methods: " ++
            String.intercalate ", " cfg.availablePaymentMethods),
         store)
      else if errDraw < cfg.errorRate then
        (ProcessResult.failure 500 "processing_error"
          "An error occurred while processing the payment. Please try again.",
         store)
      else
        match creditCardCheck cfg req with
        | some r => (r, store)
        | none =>
          if declineDraw < cfg.declineRate ∧ rawCardNumber req ≠ some cfg.testCards.success then
            (ProcessResult.failure 402 "payment_declined"
              "The payment was declined. Please try another payment method.",
             store)
          else
            let t : Transaction :=
              { id := freshId, paymentMethod := pm, amount := amt, currency := cur,
                status := "succeeded", createdAt := now }
            (ProcessResult.success 201 t.id t.status amt cur now,
             setTransaction store t.id t)
    | _, _, _ =>
      (ProcessResult.failure 400 "invalid_request"
        "Missing required fields: paymentMethod, amount, and currency are required",
       store)

/-- `getPayment`: look up a transaction by identifier.  Read-only. -/
def getPayment (store : Store) (transactionId : String) : GetResult :=
  match findTransaction store transactionId with
  | none => GetResult.failure 404 "transaction_not_found" "Transaction not found"
  | some t =>
      GetResult.success t.id t.paymentMethod t.amount t.currency t.status t.createdAt

/-- `refundPayment`.  `errDraw` is the `Math.random()` value of the
refund error roll, `now` the refund timestamp. -/
def refundPayment (cfg : Config) (store : Store) (transactionId : String)
    (req : RefundRequest) (errDraw : ℚ) (now : String) : RefundResult × Store :=
  match findTransaction store transactionId with
  | none =>
      (RefundResult.failure 404 "transaction_not_found" "Transaction not found",
       store)
  | some transaction =>
    if transaction.status = "refunded" then
      (RefundResult.failure 400 "already_refunded"
        "This transaction has already been refunded",
       store)
    else if errDraw < cfg.errorRate then
      (RefundResult.failure 500 "refund_processing_error"
        "An error occurred while processing the refund. Please try again.",
       store)
    else
      let refundAmount : ℚ :=
        match req.amount with
        | some a => if a = 0 then transaction.amount else a
        | none => transaction.amount
      let refundReason : String :=
        match req.reason with
        | some r => if r = "" then "customer_request" else r
        | none => "customer_request"
      let updated : Transaction :=
        { transaction with
            status := "refunded", refundedAt := some now,
            refundAmount := some refundAmount, refundReason := some refundReason }
      (RefundResult.success updated.id "refunded" refundAmount now refundReason,
       setTransaction store transactionId updated)

/-- The status invariant: every stored transaction is `succeeded` or `refunded`. -/
def StatusOK (t : Transaction) : Prop :=
  t.status = "succeeded" ∨ t.status = "refunded"

/-- A store satisfies the invariant when every stored transaction does. -/
def StoreOK (store : Store) : Prop :=
  ∀ id t, findTransaction store id = some t → StatusOK t

/-- Fixture: a stored succeeded transaction, for concrete instantiations. -/
def txA : Transaction :=
  { id := "tx1", paymentMethod := "credit_card", amount := 100,
    currency := "USD", status := "succeeded", createdAt := "t0" }

/-- Fixture: a store holding just `txA`. -/
def storeA : Store := [("tx1", txA)]

/-- Fixture: the default configuration with the error probability set to 0. -/
def cfgE0 : Config := { DEFAULT_CONFIG with errorRate := 0 }

/-! ### Supporting lemmas -/

/-- Looking up the key just written returns the written transaction. -/
theorem findTransaction_setTransaction_self (store : Store) (id : String) (t : Transaction) :
    findTransaction (setTransaction store id t) id = some t := by
  induction store with
  | nil => simp [setTransaction, findTransaction]
  | cons kv rest ih =>
      obtain ⟨k, v⟩ := kv
      by_cases h : k = id
      · simp [setTransaction, findTransaction, h]
      · simp [setTransaction, findTransaction, h, ih]

/-- Writing one key leaves every other key unchanged. -/
theorem findTransaction_setTransaction_ne (store : Store) (id id2 : String) (t : Transaction)
    (h : id2 ≠ id) :
    findTransaction (setTransaction store id t) id2 = findTransaction store id2 := by
  induction store with
  | nil =>
      simp only [setTransaction, findTransaction]
      rw [if_neg (fun hh => h hh.symm)]
  | cons kv rest ih =>
      obtain ⟨k, v⟩ := kv
      by_cases hk : k = id
      · subst hk
        simp [setTransaction, findTransaction, h, Ne.symm h]
      · by_cases hk2 : k = id2
        · simp [setTransaction, findTransaction, hk, hk2, h]
        · simp [setTransaction, findTransaction, hk, hk2, ih]

/-- An optional string field is falsy exactly when it is absent or empty. -/
theorem truthyStr_eq_false_iff (o : Option String) :
    truthyStr o = false ↔ o = none ∨ o = some "" := by
  cases o <;> simp [truthyStr]

/-- An optional numeric field is falsy exactly when it is absent or zero. -/
theorem truthyNum_eq_false_iff (o : Option ℚ) :
    truthyNum o = false ↔ o = none ∨ o = some 0 := by
  cases o <;> simp [truthyNum]

/-- Every error code a magic-card match can force, for any card table. -/
theorem magicCardError_code_mem (cards : TestCards) (n : String) (s : Nat) (c m : String)
    (h : magicCardError cards n = some (s, c, m)) :
    c = "card_declined" ∨ c = "processing_error" ∨ c = "invalid_cvv" ∨
    c = "expired_card" ∨ c = "insufficient_funds" ∨ c = "invalid_card" := by
  unfold magicCardError at h
  split_ifs at h <;> simp_all

/-- The credit-card block can only produce failure responses, with one of a
fixed set of error codes. -/
theorem creditCardCheck_failure (cfg : Config) (req : PaymentRequest) (r : ProcessResult)
    (h : creditCardCheck cfg req = some r) :
    ∃ s c m, r = ProcessResult.failure s c m ∧
      (c = "invalid_card_details" ∨ c = "card_declined" ∨ c = "processing_error" ∨
       c = "invalid_cvv" ∨ c = "expired_card" ∨ c = "insufficient_funds" ∨ c = "invalid_card") := by
  unfold creditCardCheck at h
  split at h
  · split at h
    · simp only [Option.some.injEq] at h
      exact ⟨_, _, _, h.symm, Or.inl rfl⟩
    · rename_i raw heqraw
      split at h
      · simp only [Option.some.injEq] at h
        exact ⟨_, _, _, h.symm, Or.inl rfl⟩
      · split at h
        · rename_i trip htrip
          simp only [Option.some.injEq] at h
          have hmem := magicCardError_code_mem cfg.testCards (stripWhitespace raw)
            trip.1 trip.2.1 trip.2.2 htrip
          refine ⟨trip.1, trip.2.1, trip.2.2, h.symm, ?_⟩
          tauto
        · simp at h
  · simp at h

/-- A failing `processPayment` call leaves the store untouched: every failure
branch returns the store unchanged. -/
theorem processPayment_failure_store (cfg : Config) (req : PaymentRequest)
    (e d : ℚ) (fid now : String) (store : Store) (s : Nat) (c m : String) (store2 : Store)
    (h : processPayment cfg req e d fid now store = (ProcessResult.failure s c m, store2)) :
    store2 = store := by
  unfold processPayment at h
  repeat' split at h
  all_goals simp_all

/-- A failing `refundPayment` call leaves the store untouched. -/
theorem refundPayment_failure_store (cfg : Config) (store : Store) (tid : String)
    (req : RefundRequest) (e : ℚ) (now : String) (s : Nat) (c m : String) (store2 : Store)
    (h : refundPayment cfg store tid req e now = (RefundResult.failure s c m, store2)) :
    store2 = store := by
  unfold refundPayment at h
  repeat' split at h
  all_goals simp_all

/-- Inversion of a successful `processPayment` call: the response carries
HTTP 201, the fresh identifier, status succeeded, the submitted amount and
currency, and the store gains exactly that transaction under the fresh id. -/
theorem processPayment_success_inv (cfg : Config) (req : PaymentRequest)
    (e d : ℚ) (fid now : String) (store : Store) (st : Nat) (tid txst : String)
    (a : ℚ) (c ca : String) (store2 : Store)
    (h : processPayment cfg req e d fid now store =
      (ProcessResult.success st tid txst a c ca, store2)) :
    st = 201 ∧ tid = fid ∧ txst = "succeeded" ∧ ca = now ∧
    req.amount = some a ∧ req.currency = some c ∧
    ∃ pm, req.paymentMethod = some pm ∧
      store2 = setTransaction store fid
        { id := fid, paymentMethod := pm, amount := a, currency := c,
          status := "succeeded", createdAt := now } := by
  unfold processPayment at h
  split at h
  · simp at h
  · split at h
    · rename_i pm amt cur hpm hamt hcur
      split at h
      · simp at h
      · split at h
        · simp at h
        · split at h
          · rename_i r hcc
            obtain ⟨s3, c3, m3, hr, _⟩ := creditCardCheck_failure cfg req r hcc
            subst hr
            simp at h
          · split at h
            · simp at h
            · simp only [Prod.mk.injEq, ProcessResult.success.injEq] at h
              obtain ⟨⟨h1, h2, h3, h4, h5, h6⟩, h7⟩ := h
              subst h1 h2 h3 h4 h5 h6
              exact ⟨rfl, rfl, rfl, rfl, hamt, hcur, pm, hpm, h7.symm⟩
    · simp_all

/-- `processPayment` either leaves the store unchanged or inserts, under the
fresh identifier, a transaction in status succeeded built from the request. -/
theorem processPayment_store_cases (cfg : Config) (req : PaymentRequest) (e d : ℚ)
    (fid now : String) (store : Store) :
    (processPayment cfg req e d fid now store).2 = store ∨
    ∃ pm amt cur, req.paymentMethod = some pm ∧ req.amount = some amt ∧
      req.currency = some cur ∧
      (processPayment cfg req e d fid now store).2 = setTransaction store fid
        { id := fid, paymentMethod := pm, amount := amt, currency := cur,
          status := "succeeded", createdAt := now } := by
  cases hr : (processPayment cfg req e d fid now store).1 with
  | failure s c m =>
      left
      exact processPayment_failure_store cfg req e d fid now store s c m _ (by rw [← hr])
  | success st tid txst a c ca =>
      right
      obtain ⟨h201, htid, htxst, hca, hamt, hcur, pm, hpm, hstore⟩ :=
        processPayment_success_inv cfg req e d fid now store st tid txst a c ca _ (by rw [← hr])
      subst hca
      exact ⟨pm, a, c, hpm, hamt, hcur, hstore⟩

/-- `refundPayment` either leaves the store unchanged or overwrites the found,
not-yet-refunded transaction with its refunded version. -/
theorem refundPayment_store_cases (cfg : Config) (store : Store) (tid : String)
    (rr : RefundRequest) (e : ℚ) (now : String) :
    (refundPayment cfg store tid rr e now).2 = store ∨
    ∃ t ra rs, findTransaction store tid = some t ∧ t.status ≠ "refunded" ∧
      (refundPayment cfg store tid rr e now).2 = setTransaction store tid
        { t with
            status := "refunded"
            refundedAt := some now
            refundAmount := some ra
            refundReason := some rs } := by
  cases hfind : findTransaction store tid with
  | none => left; simp [refundPayment, hfind]
  | some t =>
      by_cases href : t.status = "refunded"
      · left; simp [refundPayment, hfind, href]
      · by_cases herr : e < cfg.errorRate
        · left; simp [refundPayment, hfind, href, herr]
        · right
          refine ⟨t,
            (match rr.amount with
             | some a => if a = 0 then t.amount else a
             | none => t.amount),
            (match rr.reason with
             | some r => if r = "" then "customer_request" else r
             | none => "customer_request"),
            rfl, href, ?_⟩
          simp [refundPayment, hfind, href, herr]

/-- Full computation of a refund that passes all three error checks. -/
theorem refundPayment_success_compute (cfg : Config) (store : Store) (tid : String)
    (t : Transaction) (rr : RefundRequest) (e : ℚ) (now : String)
    (hfind : findTransaction store tid = some t) (href : t.status ≠ "refunded")
    (herr : ¬ e < cfg.errorRate) :
    refundPayment cfg store tid rr e now =
      (RefundResult.success t.id "refunded"
        (match rr.amount with
         | some a => if a = 0 then t.amount else a
         | none => t.amount) now
        (match rr.reason with
         | some r => if r = "" then "customer_request" else r
         | none => "customer_request"),
       setTransaction store tid
         { t with
             status := "refunded"
             refundedAt := some now
             refundAmount := some (match rr.amount with
               | some a => if a = 0 then t.amount else a
               | none => t.amount)
             refundReason := some (match rr.reason with
               | some r => if r = "" then "customer_request" else r
               | none => "customer_request") }) := by
  simp [refundPayment, hfind, href, herr]

/-- A validated credit-card request whose stripped card number matches a magic
entry gets exactly the forced error response of that entry. -/
theorem processPayment_magic (cfg : Config) (amt : ℚ) (cur raw : String) (e d : ℚ)
    (fid now : String) (store : Store) (hamt : amt ≠ 0) (hcur : cur ≠ "")
    (hpmok : cfg.availablePaymentMethods.contains "credit_card" = true)
    (herr : ¬ e < cfg.errorRate) (s : Nat) (c m : String)
    (hmagic : magicCardError cfg.testCards (stripWhitespace raw) = some (s, c, m))
    (hraw : raw ≠ "") :
    (processPayment cfg
      { paymentMethod := some "credit_card", amount := some amt, currency := some cur,
        cardDetails := some { number := some raw } } e d fid now store).1 =
      ProcessResult.failure s c m := by
  have hcc : creditCardCheck cfg
      { paymentMethod := some "credit_card", amount := some amt, currency := some cur,
        cardDetails := some { number := some raw } } =
      some (ProcessResult.failure s c m) := by
    simp [creditCardCheck, rawCardNumber, hraw, hmagic]
  have hmem : "credit_card" ∈ cfg.availablePaymentMethods := by simpa using hpmok
  simp [processPayment, truthyStr, truthyNum, hamt, hcur, hmem, herr, hcc]

/-! ### Claim theorems -/

/-- C1 counterexample: under the default table the expired-card number equals
the generic-error number, so a payment with the expired card returns
processing_error (500), not expired_card (400), even with error rate 0. -/
theorem expired_card_gets_processing_error :
    DEFAULT_CONFIG.testCards.expiredCard = "4000000000000069" ∧
    DEFAULT_CONFIG.testCards.error = DEFAULT_CONFIG.testCards.expiredCard ∧
    (processPayment { DEFAULT_CONFIG with errorRate := 0 }
        { paymentMethod := some "credit_card", amount := some 100, currency := some "USD",
          cardDetails := some { number := some "4000000000000069" } }
        0 0 "tx1" "t0" []).1 =
      ProcessResult.failure 500 "processing_error"
        "An error occurred while processing the card. Please try again." ∧
    (processPayment { DEFAULT_CONFIG with errorRate := 0 }
        { paymentMethod := some "credit_card", amount := some 100, currency := some "USD",
          cardDetails := some { number := some "4000000000000069" } }
        0 0 "tx1" "t0" []).1 ≠
      ProcessResult.failure 400 "expired_card"
        "The card has expired. Please use a different card." := by
  decide

/-- C1 (amended): with the default table, error rate 0, a validated credit-card
request (nonzero amount, nonempty currency) and any decline draw, each magic
card number, after whitespace stripping, forces its specific error code; the
number shared by the error and expired entries forces processing_error. -/
theorem magic_cards_default (amt : ℚ) (cur raw : String) (e d : ℚ) (fid now : String)
    (store : Store) (hamt : amt ≠ 0) (hcur : cur ≠ "") (he : 0 ≤ e) :
    (stripWhitespace raw = "4000000000000002" →
      (processPayment { DEFAULT_CONFIG with errorRate := 0 }
          { paymentMethod := some "credit_card", amount := some amt, currency := some cur,
            cardDetails := some { number := some raw } } e d fid now store).1 =
        ProcessResult.failure 402 "card_declined"
          "The card was declined. Please try another payment method.") ∧
    (stripWhitespace raw = "4000000000000069" →
      (processPayment { DEFAULT_CONFIG with errorRate := 0 }
          { paymentMethod := some "credit_card", amount := some amt, currency := some cur,
            cardDetails := some { number := some raw } } e d fid now store).1 =
        ProcessResult.failure 500 "processing_error"
          "An error occurred while processing the card. Please try again.") ∧
    (stripWhitespace raw = "4000000000000127" →
      (processPayment { DEFAULT_CONFIG with errorRate := 0 }
          { paymentMethod := some "credit_card", amount := some amt, currency := some cur,
            cardDetails := some { number := some raw } } e d fid now store).1 =
        ProcessResult.failure 400 "invalid_cvv"
          "The CVV code is invalid. Please check and try again.") ∧
    (stripWhitespace raw = "4000000000009995" →
      (processPayment { DEFAULT_CONFIG with errorRate := 0 }
          { paymentMethod := some "credit_card", amount := some amt, currency := some cur,
            cardDetails := some { number := some raw } } e d fid now store).1 =
        ProcessResult.failure 402 "insufficient_funds"
          "The card has insufficient funds. Please use a different card.") ∧
    (stripWhitespace raw = "1234567890123456" →
      (processPayment { DEFAULT_CONFIG with errorRate := 0 }
          { paymentMethod := some "credit_card", amount := some amt, currency := some cur,
            cardDetails := some { number := some raw } } e d fid now store).1 =
        ProcessResult.failure 400 "invalid_card"
          "The card number is invalid. Please check and try again.") := by
  have herr : ¬ e < ({ DEFAULT_CONFIG with errorRate := 0 } : Config).errorRate := not_lt.mpr he
  refine ⟨fun hstrip => ?_, fun hstrip => ?_, fun hstrip => ?_, fun hstrip => ?_, fun hstrip => ?_⟩ <;>
    [ (exact processPayment_magic _ amt cur raw e d fid now store hamt hcur (by decide) herr
        402 "card_declined" "The card was declined. Please try another payment method."
        (by rw [hstrip]; rfl) (fun hh => by rw [hh] at hstrip; exact absurd hstrip (by decide)));
      (exact processPayment_magic _ amt cur raw e d fid now store hamt hcur (by decide) herr
        500 "processing_error" "An error occurred while processing the card. Please try again."
        (by rw [hstrip]; rfl) (fun hh => by rw [hh] at hstrip; exact absurd hstrip (by decide)));
      (exact processPayment_magic _ amt cur raw e d fid now store hamt hcur (by decide) herr
        400 "invalid_cvv" "The CVV code is invalid. Please check and try again."
        (by rw [hstrip]; rfl) (fun hh => by rw [hh] at hstrip; exact absurd hstrip (by decide)));
      (exact processPayment_magic _ amt cur raw e d fid now store hamt hcur (by decide) herr
        402 "insufficient_funds" "The card has insufficient funds. Please use a different card."
        (by rw [hstrip]; rfl) (fun hh => by rw [hh] at hstrip; exact absurd hstrip (by decide)));
      (exact processPayment_magic _ amt cur raw e d fid now store hamt hcur (by decide) herr
        400 "invalid_card" "The card number is invalid. Please check and try again."
        (by rw [hstrip]; rfl) (fun hh => by rw [hh] at hstrip; exact absurd hstrip (by decide)))]

/-- C1 witness: the decline card, written with spaces, is declined. -/
theorem magic_cards_default_witness :
    (processPayment { DEFAULT_CONFIG with errorRate := 0 }
        { paymentMethod := some "credit_card", amount := some 100, currency := some "USD",
          cardDetails := some { number := some "4000 0000 0000 0002" } }
        0 0 "tx1" "t0" []).1 =
      ProcessResult.failure 402 "card_declined"
        "The card was declined. Please try another payment method." :=
  (magic_cards_default 100 "USD" "4000 0000 0000 0002" 0 0 "tx1" "t0" []
    (by decide) (by decide) (by decide)).1 (by decide)

/-- C2 counterexample: the decline-roll bypass compares the raw card number, so
the success card written with spaces, which normalizes to the success number,
is still declined when the decline roll fires. -/
theorem whitespace_success_card_payment_declined :
    stripWhitespace "4111 1111 1111 1111" = DEFAULT_CONFIG.testCards.success ∧
    (processPayment { DEFAULT_CONFIG with errorRate := 0, declineRate := 1 }
        { paymentMethod := some "credit_card", amount := some 100, currency := some "USD",
          cardDetails := some { number := some "4111 1111 1111 1111" } }
        0 0 "tx1" "t0" []).1 =
      ProcessResult.failure 402 "payment_declined"
        "The payment was declined. Please try another payment method." := by
  decide

/-- C2 (amended): a request whose raw, unnormalized card number equals the
configured success number never gets payment_declined, for any configuration,
draws, and store. -/
theorem success_card_never_payment_declined (cfg : Config) (req : PaymentRequest)
    (e d : ℚ) (fid now : String) (store : Store)
    (hraw : rawCardNumber req = some cfg.testCards.success)
    (s : Nat) (m : String) :
    (processPayment cfg req e d fid now store).1 ≠
      ProcessResult.failure s "payment_declined" m := by
  intro h
  unfold processPayment at h
  split at h
  · simp at h
  · split at h
    · rename_i pm amt cur hpm hamt hcur
      split at h
      · simp at h
      · split at h
        · simp at h
        · split at h
          · rename_i r hcc
            obtain ⟨s3, c3, m3, hr, hcodes⟩ := creditCardCheck_failure cfg req r hcc
            subst hr
            simp only [ProcessResult.failure.injEq] at h
            obtain ⟨_, hc3, _⟩ := h
            rcases hcodes with hc | hc | hc | hc | hc | hc | hc <;> rw [hc] at hc3 <;> simp at hc3
          · split at h
            · rename_i hdecl
              exact hdecl.2 hraw
            · simp at h
    · simp at h

/-- C2 witness: the success card, written without spaces, is not declined. -/
theorem success_card_never_payment_declined_witness :
    (processPayment DEFAULT_CONFIG
        { paymentMethod := some "credit_card", amount := some 100, currency := some "USD",
          cardDetails := some { number := some "4111111111111111" } }
        0 0 "tx1" "t0" []).1 ≠
      ProcessResult.failure 402 "payment_declined"
        "The payment was declined. Please try another payment method." :=
  success_card_never_payment_declined DEFAULT_CONFIG
    { paymentMethod := some "credit_card", amount := some 100, currency := some "USD",
      cardDetails := some { number := some "4111111111111111" } }
    0 0 "tx1" "t0" [] (by decide) 402
    "The payment was declined. Please try another payment method."

/-- C3 counterexample: with the success card, both probabilities 0, and a
present amount of 0, the request is rejected as invalid_request because the
missing-field check uses JavaScript truthiness, so no 201 response occurs. -/
theorem success_card_zero_amount_rejected :
    (processPayment { DEFAULT_CONFIG with errorRate := 0, declineRate := 0 }
        { paymentMethod := some "credit_card", amount := some 0, currency := some "USD",
          cardDetails := some { number := some "4111111111111111" } }
        0 0 "tx1" "t0" []).1 =
      ProcessResult.failure 400 "invalid_request"
        "Missing required fields: paymentMethod, amount, and currency are required" := by
  decide

/-- C3 (amended): with both probabilities 0, the success card, a present
nonzero amount and a present nonempty currency, processPayment returns the 201
succeeded response with the submitted amount and currency and stores the new
transaction under the generated identifier. -/
theorem success_card_payment_succeeds (amt : ℚ) (cur : String) (e d : ℚ)
    (fid now : String) (store : Store) (hamt : amt ≠ 0) (hcur : cur ≠ "")
    (he : 0 ≤ e) (hd : 0 ≤ d) :
    processPayment { DEFAULT_CONFIG with errorRate := 0, declineRate := 0 }
      { paymentMethod := some "credit_card", amount := some amt, currency := some cur,
        cardDetails := some { number := some "4111111111111111" } }
      e d fid now store =
    (ProcessResult.success 201 fid "succeeded" amt cur now,
     setTransaction store fid
       { id := fid, paymentMethod := "credit_card", amount := amt, currency := cur,
         status := "succeeded", createdAt := now }) ∧
    findTransaction
      (processPayment { DEFAULT_CONFIG with errorRate := 0, declineRate := 0 }
        { paymentMethod := some "credit_card", amount := some amt, currency := some cur,
          cardDetails := some { number := some "4111111111111111" } }
        e d fid now store).2 fid =
      some { id := fid, paymentMethod := "credit_card", amount := amt, currency := cur,
             status := "succeeded", createdAt := now } := by
  have hcc : creditCardCheck { DEFAULT_CONFIG with errorRate := 0, declineRate := 0 }
      { paymentMethod := some "credit_card", amount := some amt, currency := some cur,
        cardDetails := some { number := some "4111111111111111" } } = none := rfl
  have herr : ¬ e < (0 : ℚ) := not_lt.mpr he
  have hdec : ¬ d < (0 : ℚ) := not_lt.mpr hd
  have hmain : processPayment { DEFAULT_CONFIG with errorRate := 0, declineRate := 0 }
      { paymentMethod := some "credit_card", amount := some amt, currency := some cur,
        cardDetails := some { number := some "4111111111111111" } }
      e d fid now store =
      (ProcessResult.success 201 fid "succeeded" amt cur now,
       setTransaction store fid
         { id := fid, paymentMethod := "credit_card", amount := amt, currency := cur,
           status := "succeeded", createdAt := now }) := by
    simp [processPayment, truthyStr, truthyNum, hamt, hcur, herr, hdec, DEFAULT_CONFIG]
    split
    · rename_i r hr
      exact absurd (hr.symm.trans hcc) (by simp)
    · rfl
  refine ⟨hmain, ?_⟩
  rw [hmain]
  exact findTransaction_setTransaction_self store fid _

/-- C3 witness: the concrete scenario with amount 100 and currency USD. -/
theorem success_card_payment_succeeds_witness :
    processPayment { DEFAULT_CONFIG with errorRate := 0, declineRate := 0 }
      { paymentMethod := some "credit_card", amount := some 100, currency := some "USD",
        cardDetails := some { number := some "4111111111111111" } }
      0 0 "tx1" "t0" [] =
    (ProcessResult.success 201 "tx1" "succeeded" 100 "USD" "t0",
     setTransaction [] "tx1"
       { id := "tx1", paymentMethod := "credit_card", amount := 100, currency := "USD",
         status := "succeeded", createdAt := "t0" }) ∧
    findTransaction
      (processPayment { DEFAULT_CONFIG with errorRate := 0, declineRate := 0 }
        { paymentMethod := some "credit_card", amount := some 100, currency := some "USD",
          cardDetails := some { number := some "4111111111111111" } }
        0 0 "tx1" "t0" []).2 "tx1" =
      some { id := "tx1", paymentMethod := "credit_card", amount := 100, currency := "USD",
             status := "succeeded", createdAt := "t0" } :=
  success_card_payment_succeeds 100 "USD" 0 0 "tx1" "t0" []
    (by decide) (by decide) (by decide) (by decide)

/-- C4: after any successful processPayment call, getPayment on the returned
identifier in the resulting store returns the submitted payment method, amount
and currency, with status succeeded. -/
theorem process_get_roundtrip (cfg : Config) (req : PaymentRequest) (e d : ℚ)
    (fid now : String) (store store2 : Store) (st : Nat) (tid txst : String)
    (a : ℚ) (c ca : String)
    (h : processPayment cfg req e d fid now store =
      (ProcessResult.success st tid txst a c ca, store2)) :
    ∃ pm, req.paymentMethod = some pm ∧ req.amount = some a ∧ req.currency = some c ∧
      getPayment store2 tid = GetResult.success tid pm a c "succeeded" ca := by
  obtain ⟨h201, htid, htxst, hca, hamt, hcur, pm, hpm, hstore⟩ :=
    processPayment_success_inv cfg req e d fid now store st tid txst a c ca store2 h
  subst htid hca hstore
  refine ⟨pm, hpm, hamt, hcur, ?_⟩
  unfold getPayment
  rw [findTransaction_setTransaction_self]

/-- C4 witness: the round trip at the concrete success scenario. -/
theorem process_get_roundtrip_witness :
    ∃ pm,
      ({ paymentMethod := some "credit_card", amount := some 100, currency := some "USD",
         cardDetails := some { number := some "4111111111111111" } } :
           PaymentRequest).paymentMethod = some pm ∧
      ({ paymentMethod := some "credit_card", amount := some 100, currency := some "USD",
         cardDetails := some { number := some "4111111111111111" } } :
           PaymentRequest).amount = some 100 ∧
      ({ paymentMethod := some "credit_card", amount := some 100, currency := some "USD",
         cardDetails := some { number := some "4111111111111111" } } :
           PaymentRequest).currency = some "USD" ∧
      getPayment
        (setTransaction [] "tx1"
          { id := "tx1", paymentMethod := "credit_card", amount := 100, currency := "USD",
            status := "succeeded", createdAt := "t0" }) "tx1" =
        GetResult.success "tx1" pm 100 "USD" "succeeded" "t0" :=
  process_get_roundtrip { DEFAULT_CONFIG with errorRate := 0, declineRate := 0 }
    { paymentMethod := some "credit_card", amount := some 100, currency := some "USD",
      cardDetails := some { number := some "4111111111111111" } }
    0 0 "tx1" "t0" []
    (setTransaction [] "tx1"
      { id := "tx1", paymentMethod := "credit_card", amount := 100, currency := "USD",
        status := "succeeded", createdAt := "t0" })
    201 "tx1" "succeeded" 100 "USD" "t0" (by decide)

/-- C5: with error rate 0, refunding a stored succeeded transaction succeeds,
stores the refunded version with refund amount, timestamp and reason recorded,
and every further refund of the same identifier fails with already_refunded
(HTTP 400) leaving the store unchanged. -/
theorem refund_once_then_already_refunded (cfg : Config) (store : Store) (tid : String)
    (t : Transaction) (rr : RefundRequest) (e : ℚ) (now : String)
    (herr0 : cfg.errorRate = 0) (he : 0 ≤ e)
    (hfind : findTransaction store tid = some t) (hst : t.status = "succeeded") :
    (∃ ra rs,
      (refundPayment cfg store tid rr e now).1 =
        RefundResult.success t.id "refunded" ra now rs ∧
      findTransaction (refundPayment cfg store tid rr e now).2 tid =
        some { t with
                 status := "refunded"
                 refundedAt := some now
                 refundAmount := some ra
                 refundReason := some rs }) ∧
    (∀ (rr2 : RefundRequest) (e2 : ℚ) (now2 : String),
      refundPayment cfg (refundPayment cfg store tid rr e now).2 tid rr2 e2 now2 =
        (RefundResult.failure 400 "already_refunded"
          "This transaction has already been refunded",
         (refundPayment cfg store tid rr e now).2)) := by
  have href : t.status ≠ "refunded" := by rw [hst]; simp
  have herr : ¬ e < cfg.errorRate := by rw [herr0]; exact not_lt.mpr he
  have hpair := refundPayment_success_compute cfg store tid t rr e now hfind href herr
  constructor
  · refine ⟨(match rr.amount with
       | some a => if a = 0 then t.amount else a
       | none => t.amount),
      (match rr.reason with
       | some r => if r = "" then "customer_request" else r
       | none => "customer_request"), ?_, ?_⟩
    · rw [hpair]
    · rw [hpair]
      exact findTransaction_setTransaction_self store tid _
  · intro rr2 e2 now2
    rw [hpair]
    simp [refundPayment, findTransaction_setTransaction_self]

/-- C5 witness: refunding the fixture transaction once, then again. -/
theorem refund_once_then_already_refunded_witness :
    (∃ ra rs,
      (refundPayment cfgE0 storeA "tx1" { amount := none, reason := none } 0 "t1").1 =
        RefundResult.success txA.id "refunded" ra "t1" rs ∧
      findTransaction
        (refundPayment cfgE0 storeA "tx1" { amount := none, reason := none } 0 "t1").2 "tx1" =
        some { txA with
                 status := "refunded"
                 refundedAt := some "t1"
                 refundAmount := some ra
                 refundReason := some rs }) ∧
    (∀ (rr2 : RefundRequest) (e2 : ℚ) (now2 : String),
      refundPayment cfgE0
          (refundPayment cfgE0 storeA "tx1" { amount := none, reason := none } 0 "t1").2
          "tx1" rr2 e2 now2 =
        (RefundResult.failure 400 "already_refunded"
          "This transaction has already been refunded",
         (refundPayment cfgE0 storeA "tx1" { amount := none, reason := none } 0 "t1").2)) :=
  refund_once_then_already_refunded cfgE0 storeA "tx1" txA
    { amount := none, reason := none } 0 "t1"
    (by decide) (by decide) (by decide) (by decide)

/-- C6: getPayment and refundPayment fail with transaction_not_found (404)
exactly when the identifier is absent from the store, and after
resetTransactions both always fail that way. -/
theorem transaction_not_found_iff (cfg : Config) (store : Store) (tid : String)
    (req : RefundRequest) (e : ℚ) (now : String) :
    (getPayment store tid =
        GetResult.failure 404 "transaction_not_found" "Transaction not found" ↔
      findTransaction store tid = none) ∧
    ((refundPayment cfg store tid req e now).1 =
        RefundResult.failure 404 "transaction_not_found" "Transaction not found" ↔
      findTransaction store tid = none) ∧
    getPayment (resetTransactions store) tid =
      GetResult.failure 404 "transaction_not_found" "Transaction not found" ∧
    (refundPayment cfg (resetTransactions store) tid req e now).1 =
      RefundResult.failure 404 "transaction_not_found" "Transaction not found" := by
  refine ⟨?_, ?_, ?_, ?_⟩
  · unfold getPayment
    cases hfind : findTransaction store tid <;> simp [hfind]
  · cases hfind : findTransaction store tid with
    | none => unfold refundPayment; simp [hfind]
    | some t =>
        unfold refundPayment
        simp only [hfind]
        constructor
        · intro h
          exfalso
          split_ifs at h <;> simp_all
        · intro h
          exact absurd h (by simp)
  · simp [resetTransactions, getPayment, findTransaction]
  · simp [resetTransactions, refundPayment, findTransaction]

/-- C7 counterexample: a request with all three fields present but amount 0 is
still rejected as invalid_request, because the check uses truthiness. -/
theorem present_zero_amount_invalid_request :
    (({ paymentMethod := some "paypal", amount := some 0, currency := some "USD",
        cardDetails := none } : PaymentRequest).paymentMethod).isSome = true ∧
    (({ paymentMethod := some "paypal", amount := some 0, currency := some "USD",
        cardDetails := none } : PaymentRequest).amount).isSome = true ∧
    (({ paymentMethod := some "paypal", amount := some 0, currency := some "USD",
        cardDetails := none } : PaymentRequest).currency).isSome = true ∧
    (processPayment DEFAULT_CONFIG
        { paymentMethod := some "paypal", amount := some 0, currency := some "USD",
          cardDetails := none } 1 1 "tx1" "t0" []).1 =
      ProcessResult.failure 400 "invalid_request"
        "Missing required fields: paymentMethod, amount, and currency are required" := by
  decide

/-- C7 (amended): processPayment returns the missing-field invalid_request
error exactly when payment method, amount, or currency is absent or falsy
(absent, empty-string method or currency, or amount 0). -/
theorem invalid_request_iff (cfg : Config) (req : PaymentRequest) (e d : ℚ)
    (fid now : String) (store : Store) :
    (processPayment cfg req e d fid now store).1 =
      ProcessResult.failure 400 "invalid_request"
        "Missing required fields: paymentMethod, amount, and currency are required" ↔
    (req.paymentMethod = none ∨ req.paymentMethod = some "" ∨
     req.amount = none ∨ req.amount = some 0 ∨
     req.currency = none ∨ req.currency = some "") := by
  constructor
  · intro h
    by_contra hR
    push_neg at hR
    obtain ⟨h1, h2, h3, h4, h5, h6⟩ := hR
    have htr : (truthyStr req.paymentMethod && truthyNum req.amount && truthyStr req.currency) = true := by
      rcases hp : req.paymentMethod with _ | pm
      · exact absurd hp h1
      · rcases ha : req.amount with _ | amt
        · exact absurd ha h3
        · rcases hc : req.currency with _ | cur
          · exact absurd hc h5
          · have hpm2 : pm ≠ "" := fun hh => h2 (hp.trans (by rw [hh]))
            have hamt2 : amt ≠ 0 := fun hh => h4 (ha.trans (by rw [hh]))
            have hcur2 : cur ≠ "" := fun hh => h6 (hc.trans (by rw [hh]))
            simp [truthyStr, truthyNum, hpm2, hamt2, hcur2]
    unfold processPayment at h
    rw [if_neg (by simp [htr])] at h
    split at h
    · rename_i pm amt cur hpm hamt hcur
      split at h
      · simp at h
      · split at h
        · simp at h
        · split at h
          · rename_i r hcc
            obtain ⟨s3, c3, m3, hr, hcodes⟩ := creditCardCheck_failure cfg req r hcc
            subst hr
            simp at h
            rcases hcodes with hc | hc | hc | hc | hc | hc | hc <;> simp [hc] at h
          · split at h
            · simp at h
            · simp at h
    · rename_i hcatch
      simp [truthyStr, truthyNum] at htr
      obtain ⟨⟨hpm, hamt⟩, hcur⟩ := htr
      rcases hp : req.paymentMethod with _ | pm
      · simp [hp, truthyStr] at hpm
      · rcases ha : req.amount with _ | amt
        · simp [ha, truthyNum] at hamt
        · rcases hc : req.currency with _ | cur
          · simp [hc, truthyStr] at hcur
          · exact (hcatch pm amt cur hp ha hc).elim
  · intro hR
    have htr : (truthyStr req.paymentMethod && truthyNum req.amount && truthyStr req.currency) = false := by
      rcases hR with h | h | h | h | h | h <;> simp [h, truthyStr, truthyNum]
    unfold processPayment
    rw [if_pos (by simp [htr])]

/-- C8: assuming every stored transaction is succeeded or refunded, the store
produced by each operation satisfies the same invariant; a failing payment
leaves the store unchanged; payment only inserts succeeded transactions; and
refund only ever changes a transaction from succeeded to refunded. -/
theorem payment_state_invariant (cfg : Config) (req : PaymentRequest) (e d : ℚ)
    (fid now : String) (store : Store) (tid : String) (rr : RefundRequest)
    (e2 : ℚ) (now2 : String) (hok : StoreOK store) :
    StoreOK (processPayment cfg req e d fid now store).2 ∧
    StoreOK (refundPayment cfg store tid rr e2 now2).2 ∧
    StoreOK (resetTransactions store) ∧
    (∀ s c m, (processPayment cfg req e d fid now store).1 = ProcessResult.failure s c m →
      (processPayment cfg req e d fid now store).2 = store) ∧
    (∀ id2 t2, findTransaction (processPayment cfg req e d fid now store).2 id2 = some t2 →
      findTransaction store id2 = some t2 ∨ t2.status = "succeeded") ∧
    (∀ id2 t2 t3, findTransaction store id2 = some t2 →
      findTransaction (refundPayment cfg store tid rr e2 now2).2 id2 = some t3 →
      t3 = t2 ∨ (t2.status = "succeeded" ∧ t3.status = "refunded")) := by
  have hproc := processPayment_store_cases cfg req e d fid now store
  have hrefund := refundPayment_store_cases cfg store tid rr e2 now2
  refine ⟨?_, ?_, ?_, ?_, ?_, ?_⟩
  · rcases hproc with heq | ⟨pm, amt, cur, hpm, hamt, hcur, heq⟩
    · rw [heq]; exact hok
    · rw [heq]
      intro id2 t2 hf2
      by_cases hid : id2 = fid
      · subst hid
        rw [findTransaction_setTransaction_self] at hf2
        obtain rfl : _ = t2 := Option.some.inj hf2
        left; rfl
      · rw [findTransaction_setTransaction_ne store fid id2 _ hid] at hf2
        exact hok id2 t2 hf2
  · rcases hrefund with heq | ⟨t, ra, rs, hfind, href, heq⟩
    · rw [heq]; exact hok
    · rw [heq]
      intro id2 t2 hf2
      by_cases hid : id2 = tid
      · subst hid
        rw [findTransaction_setTransaction_self] at hf2
        obtain rfl : _ = t2 := Option.some.inj hf2
        right; rfl
      · rw [findTransaction_setTransaction_ne store tid id2 _ hid] at hf2
        exact hok id2 t2 hf2
  · intro id2 t2 hf2
    simp [resetTransactions, findTransaction] at hf2
  · intro s c m h1
    exact processPayment_failure_store cfg req e d fid now store s c m _ (by rw [← h1])
  · intro id2 t2 hf2
    rcases hproc with heq | ⟨pm, amt, cur, hpm, hamt, hcur, heq⟩
    · rw [heq] at hf2; exact Or.inl hf2
    · rw [heq] at hf2
      by_cases hid : id2 = fid
      · subst hid
        rw [findTransaction_setTransaction_self] at hf2
        obtain rfl : _ = t2 := Option.some.inj hf2
        right; rfl
      · rw [findTransaction_setTransaction_ne store fid id2 _ hid] at hf2
        exact Or.inl hf2
  · intro id2 t2 t3 hf2 hf3
    rcases hrefund with heq | ⟨t, ra, rs, hfind, href, heq⟩
    · rw [heq] at hf3
      rw [hf2] at hf3
      exact Or.inl (Option.some.inj hf3.symm)
    · rw [heq] at hf3
      by_cases hid : id2 = tid
      · subst hid
        rw [findTransaction_setTransaction_self] at hf3
        obtain rfl : _ = t3 := Option.some.inj hf3
        obtain rfl : t = t2 := by
          rw [hfind] at hf2; exact Option.some.inj hf2
        right
        refine ⟨?_, rfl⟩
        rcases hok id2 t hfind with hs | hs
        · exact hs
        · exact absurd hs href
      · rw [findTransaction_setTransaction_ne store tid id2 _ hid] at hf3
        rw [hf2] at hf3
        exact Or.inl (Option.some.inj hf3.symm)

/-- C8 witness: the invariant holds for the stores produced from the empty
store by a payment and by a refund attempt. -/
theorem payment_state_invariant_witness :
    StoreOK (processPayment { DEFAULT_CONFIG with errorRate := 0, declineRate := 0 }
      { paymentMethod := some "credit_card", amount := some 100, currency := some "USD",
        cardDetails := some { number := some "4111111111111111" } }
      0 0 "tx1" "t0" []).2 ∧
    StoreOK (refundPayment { DEFAULT_CONFIG with errorRate := 0, declineRate := 0 }
      [] "tx1" { amount := none, reason := none } 0 "t1").2 :=
  ⟨(payment_state_invariant { DEFAULT_CONFIG with errorRate := 0, declineRate := 0 }
      { paymentMethod := some "credit_card", amount := some 100, currency := some "USD",
        cardDetails := some { number := some "4111111111111111" } }
      0 0 "tx1" "t0" [] "tx1" { amount := none, reason := none } 0 "t1"
      (fun id t h => by simp [findTransaction] at h)).1,
   (payment_state_invariant { DEFAULT_CONFIG with errorRate := 0, declineRate := 0 }
      { paymentMethod := some "credit_card", amount := some 100, currency := some "USD",
        cardDetails := some { number := some "4111111111111111" } }
      0 0 "tx1" "t0" [] "tx1" { amount := none, reason := none } 0 "t1"
      (fun id t h => by simp [findTransaction] at h)).2.1⟩

/-- C9 counterexample: a caller-supplied refund amount of 0 is not recorded;
the recorded refund amount falls back to the full original amount. -/
theorem zero_refund_amount_falls_back :
    (refundPayment { DEFAULT_CONFIG with errorRate := 0 }
        [("tx1", { id := "tx1", paymentMethod := "credit_card", amount := 100,
                   currency := "USD", status := "succeeded", createdAt := "t0" })]
        "tx1" { amount := some 0, reason := none } 0 "t1").1 =
      RefundResult.success "tx1" "refunded" 100 "t1" "customer_request" ∧
    (100 : ℚ) ≠ 0 := by
  decide

/-- C9 (amended): on a successful refund the recorded amount equals the
supplied amount when it is nonzero (any such value, including values above the
original) and the full original amount when it is omitted or zero; the reason
equals the supplied reason when nonempty and customer_request otherwise. -/
theorem refund_amount_reason_defaults (cfg : Config) (store : Store) (tid : String)
    (t : Transaction) (rr : RefundRequest) (e : ℚ) (now : String)
    (herr0 : cfg.errorRate = 0) (he : 0 ≤ e)
    (hfind : findTransaction store tid = some t) (hst : t.status = "succeeded") :
    ∃ ra rs,
      (refundPayment cfg store tid rr e now).1 =
        RefundResult.success t.id "refunded" ra now rs ∧
      (∀ a, rr.amount = some a → a ≠ 0 → ra = a) ∧
      (rr.amount = none → ra = t.amount) ∧
      (rr.amount = some 0 → ra = t.amount) ∧
      (∀ r, rr.reason = some r → r ≠ "" → rs = r) ∧
      (rr.reason = none → rs = "customer_request") ∧
      (rr.reason = some "" → rs = "customer_request") := by
  have href : t.status ≠ "refunded" := by rw [hst]; simp
  have herr : ¬ e < cfg.errorRate := by rw [herr0]; exact not_lt.mpr he
  have hpair := refundPayment_success_compute cfg store tid t rr e now hfind href herr
  refine ⟨(match rr.amount with
     | some a => if a = 0 then t.amount else a
     | none => t.amount),
    (match rr.reason with
     | some r => if r = "" then "customer_request" else r
     | none => "customer_request"), by rw [hpair], ?_, ?_, ?_, ?_, ?_, ?_⟩
  · intro a ha hane
    simp [ha, hane]
  · intro ha
    simp [ha]
  · intro ha
    simp [ha]
  · intro r hr hrne
    simp [hr, hrne]
  · intro hr
    simp [hr]
  · intro hr
    simp [hr]

/-- C9 witness: an over-refund of 250 on a 100 transaction with a custom
reason is recorded verbatim. -/
theorem refund_amount_reason_defaults_witness :
    ∃ ra rs,
      (refundPayment cfgE0 storeA "tx1" { amount := some 250, reason := some "fraud" } 0 "t1").1 =
        RefundResult.success txA.id "refunded" ra "t1" rs ∧
      (∀ a, ({ amount := some 250, reason := some "fraud" } : RefundRequest).amount = some a →
        a ≠ 0 → ra = a) ∧
      (({ amount := some 250, reason := some "fraud" } : RefundRequest).amount = none →
        ra = txA.amount) ∧
      (({ amount := some 250, reason := some "fraud" } : RefundRequest).amount = some 0 →
        ra = txA.amount) ∧
      (∀ r, ({ amount := some 250, reason := some "fraud" } : RefundRequest).reason = some r →
        r ≠ "" → rs = r) ∧
      (({ amount := some 250, reason := some "fraud" } : RefundRequest).reason = none →
        rs = "customer_request") ∧
      (({ amount := some 250, reason := some "fraud" } : RefundRequest).reason = some "" →
        rs = "customer_request") :=
  refund_amount_reason_defaults cfgE0 storeA "tx1" txA
    { amount := some 250, reason := some "fraud" } 0 "t1"
    (by decide) (by decide) (by decide) (by decide)

/-- C10: every refund call that returns an error response leaves the
transaction store exactly as it was. -/
theorem refund_atomic_on_failure (cfg : Config) (store : Store) (tid : String)
    (req : RefundRequest) (e : ℚ) (now : String) (s : Nat) (c m : String)
    (h : (refundPayment cfg store tid req e now).1 = RefundResult.failure s c m) :
    (refundPayment cfg store tid req e now).2 = store := by
  exact refundPayment_failure_store cfg store tid req e now s c m _ (by rw [← h])

/-- C10 witness: a refund of an unknown identifier leaves the empty store
unchanged. -/
theorem refund_atomic_on_failure_witness :
    (refundPayment DEFAULT_CONFIG [] "missing" { amount := none, reason := none } 0 "t0").2 = [] :=
  refund_atomic_on_failure DEFAULT_CONFIG [] "missing" { amount := none, reason := none } 0 "t0"
    404 "transaction_not_found" "Transaction not found" (by decide)

end MockPayment
